import Mathlib

/-!
Verification of the multi-endpoint Docker registry and routing layer
(`src/services/docker.ts`, `src/index.ts` of the docker_mcp repository).

The TypeScript source is shallowly embedded: plain objects become
structures, JavaScript `Map` and the file system become association
lists / explicit state, `async` failure becomes `Except`, and the
spawned external `docker-compose` process is abstracted by its
observable outcome (spawn error, or termination with an exit code).
JavaScript truthiness on optional strings (`undefined` and `""` are
both falsy) is modelled explicitly by `jsTruthy`.
-/

/-- `DockerConfig` from `src/services/docker.ts`: all fields optional.
`protocol` is the string `"http"` or `"https"` in the source type union. -/
structure DockerConfig where
  name : Option String := none
  host : Option String := none
  port : Option Nat := none
  protocol : Option String := none
  socketPath : Option String := none
  ca : Option String := none
  cert : Option String := none
  key : Option String := none
deriving DecidableEq, Repr

/-- Port entry of `ContainerInfo.ports`. -/
structure PortInfo where
  privatePort : Nat
  publicPort : Option Nat := none
  type : String
deriving DecidableEq, Repr

/-- `ContainerInfo` from `src/services/docker.ts`; `created` is the epoch
millisecond value of the JS `Date`. -/
structure ContainerInfo where
  id : String
  name : String
  image : String
  state : String
  status : String
  ports : List PortInfo := []
  created : Nat := 0
  dockerServer : Option String := none
deriving DecidableEq, Repr

/-- JavaScript truthiness of a `string | undefined` value:
`undefined` and the empty string are falsy, every other string truthy. -/
def jsTruthy : Option String → Bool
  | none => false
  | some s => s != ""

/-- `socketPath.replace(/[/\\]/g, '_')`: replace every `/` or `\`
character by `_`. -/
def replacePathSeps (s : String) : String :=
  String.mk (s.data.map fun c => if c = '/' ∨ c = '\\' then '_' else c)

/-- The name-defaulting step of the `DockerService` constructor
(`src/services/docker.ts`): if `!this.config.name`, derive a name from
the socket path (`socket-<path with separators replaced>`), else from
`config.host || 'localhost'`. -/
def resolveConfigName (config : DockerConfig) : Option String :=
  if jsTruthy config.name then config.name
  else if jsTruthy config.socketPath then
    some ("socket-" ++ replacePathSeps (config.socketPath.getD ""))
  else
    some (if jsTruthy config.host then config.host.getD "" else "localhost")

/-- An Endpoint Connection: the `DockerService` class holds a copy of its
configuration with the name defaulted at construction time.  The live
dockerode client handle is external and carries no state relevant here. -/
structure DockerService where
  config : DockerConfig
deriving DecidableEq, Repr

/-- `new DockerService(config)`: stores `{ ...config }` and defaults
`this.config.name`. -/
def mkDockerService (config : DockerConfig) : DockerService :=
  ⟨{ config with name := resolveConfigName config }⟩

/-- `DockerService.getName()`: `this.config.name || 'localhost'`. -/
def DockerService.getName (s : DockerService) : String :=
  if jsTruthy s.config.name then s.config.name.getD "" else "localhost"

/-- The registry's `Map<string, α>` as an association list in insertion
order (JS `Map` iterates in insertion order). -/
abbrev Registry (α : Type) : Type := List (String × α)

/-- `Map.set(k, v)`: overwrite in place when the key is present
(keeping its original position, as JS `Map` does), else append. -/
def mapSet {α : Type} (m : Registry α) (k : String) (v : α) : Registry α :=
  if m.any (fun p => p.1 == k) then
    m.map (fun p => if p.1 == k then (k, v) else p)
  else
    m ++ [(k, v)]

/-- `Map.delete(k)`: returns whether the key was present, and the map
without that entry. -/
def mapDelete {α : Type} (m : Registry α) (k : String) : Bool × Registry α :=
  (m.any (fun p => p.1 == k), m.eraseP (fun p => p.1 == k))

/-- `Map.get(k)`. -/
def mapGet {α : Type} (m : Registry α) (k : String) : Option α :=
  (m.find? (fun p => p.1 == k)).map (fun p => p.2)

/-- `Array.from(map.keys())`. -/
def mapKeys {α : Type} (m : Registry α) : List String :=
  m.map (fun p => p.1)

/-- `DockerManager.addDockerService(config)`: construct the service and
store it under its resolved name. -/
def addDockerService (m : Registry DockerService) (config : DockerConfig) :
    Registry DockerService :=
  mapSet m (mkDockerService config).getName (mkDockerService config)

/-- `DockerManager.removeDockerService(name)`: `this.services.delete(name)`. -/
def removeDockerService (m : Registry DockerService) (name : String) :
    Bool × Registry DockerService :=
  mapDelete m name

/-- `DockerManager.getDockerService(name)`. -/
def getDockerService (m : Registry DockerService) (name : String) :
    Option DockerService :=
  mapGet m name

/-- `DockerManager.getDockerServiceNames()`. -/
def getDockerServiceNames (m : Registry DockerService) : List String :=
  mapKeys m

/-! ### Fan-out operations of `DockerManager`

The per-service engine call `service.listContainers(all)` goes through
the external dockerode client, so its behaviour is a parameter: a
function from the service and the `all` flag to either a container list
or a raised error. -/

/-- `DockerManager.listAllContainers(all)`: iterate the registry entries
in order, `try { push(...containers) } catch { log; continue }`. -/
def listAllContainers {S : Type}
    (listC : S → Bool → Except String (List ContainerInfo))
    (all : Bool) : List (String × S) → List ContainerInfo
  | [] => []
  | (_, service) :: rest =>
    (match listC service all with
      | .ok containers => containers
      | .error _ => []) ++ listAllContainers listC all rest

/-- The predicate of `containers.find(c => c.id === containerId || c.name === containerId)`. -/
def containerMatches (containerId : String) (c : ContainerInfo) : Bool :=
  c.id == containerId || c.name == containerId

/-- `DockerManager.findContainerService(containerId)`: iterate the
registry entries in order; on each, list all containers (including
stopped: the source passes `true`); return `{service, serverName}` for
the first entry whose list contains a matching id or name; a failing
list call is skipped (`catch { /* continue */ }`); else `null`. -/
def findContainerService {S : Type}
    (listC : S → Bool → Except String (List ContainerInfo))
    (containerId : String) : List (String × S) → Option (S × String)
  | [] => none
  | (name, service) :: rest =>
    match listC service true with
    | .ok containers =>
      match containers.find? (containerMatches containerId) with
      | some _ => some (service, name)
      | none => findContainerService listC containerId rest
    | .error _ => findContainerService listC containerId rest

/-- Entry `q` of the registry yields no match for `containerId`: its
list call either raises, or succeeds without a matching container. -/
def noMatchAt {S : Type}
    (listC : S → Bool → Except String (List ContainerInfo))
    (containerId : String) (q : String × S) : Prop :=
  (∃ e, listC q.2 true = .error e) ∨
  (∃ cs, listC q.2 true = .ok cs ∧ cs.find? (containerMatches containerId) = none)

/-! ### `DockerService.getContainerStats` (numeric core)

The raw stats sample returned by the engine is embedded with ℚ for the
JS `number` fields actually computed on (the concrete values of the
claims are exact in binary floating point, so ℚ agrees with the JS
arithmetic there). -/

structure CpuUsage where
  total_usage : ℚ
deriving DecidableEq, Repr

structure CpuStats where
  cpu_usage : CpuUsage
  system_cpu_usage : ℚ
  online_cpus : ℚ
deriving DecidableEq, Repr

structure PrecpuStats where
  cpu_usage : CpuUsage
  system_cpu_usage : ℚ
deriving DecidableEq, Repr

structure MemoryStatsInner where
  cache : ℚ
deriving DecidableEq, Repr

structure MemoryStats where
  usage : ℚ
  limit : ℚ
  stats : MemoryStatsInner
deriving DecidableEq, Repr

structure NetworkCounters where
  rx_bytes : ℚ
  tx_bytes : ℚ
deriving DecidableEq, Repr

/-- `stats.networks` with its single relevant interface `eth0`; both
levels are optional (`stats.networks?.eth0?`). -/
structure Networks where
  eth0 : Option NetworkCounters := none
deriving DecidableEq, Repr

structure StatsSample where
  cpu_stats : CpuStats
  precpu_stats : PrecpuStats
  memory_stats : MemoryStats
  networks : Option Networks := none
deriving DecidableEq, Repr

structure MemoryUsageOut where
  used : ℚ
  limit : ℚ
  percentage : ℚ
deriving DecidableEq, Repr

structure NetworkIOOut where
  rx_bytes : ℚ
  tx_bytes : ℚ
deriving DecidableEq, Repr

/-- `ContainerStats` as returned by `getContainerStats`; `networkIo`
renders the source field holding the network byte counters. -/
structure ContainerStats where
  id : String
  name : String
  cpuPercentage : ℚ
  memoryUsage : MemoryUsageOut
  networkIo : NetworkIOOut
  dockerServer : Option String := none
deriving DecidableEq, Repr

/-- `name.replace(/^\//, '')`: strip one leading `/`. -/
def stripLeadingSlash (s : String) : String :=
  match s.data with
  | '/' :: rest => String.mk rest
  | _ => s

/-- `DockerService.getContainerStats(containerId)` given the sample
returned by `container.stats({stream:false})` and the `Name` field of
`container.inspect()` (both external calls). -/
def getContainerStats (serverName : String) (containerId : String)
    (inspectName : String) (stats : StatsSample) : ContainerStats :=
  let cpuDelta :=
    stats.cpu_stats.cpu_usage.total_usage - stats.precpu_stats.cpu_usage.total_usage
  let systemDelta :=
    stats.cpu_stats.system_cpu_usage - stats.precpu_stats.system_cpu_usage
  let cpuPercentage := (cpuDelta / systemDelta) * stats.cpu_stats.online_cpus * 100
  let memoryUsed := stats.memory_stats.usage - stats.memory_stats.stats.cache
  let memoryLimit := stats.memory_stats.limit
  let memoryPercentage := (memoryUsed / memoryLimit) * 100
  { id := containerId
    name := stripLeadingSlash inspectName
    cpuPercentage := cpuPercentage
    memoryUsage :=
      { used := memoryUsed
        limit := memoryLimit
        percentage := memoryPercentage }
    networkIo :=
      { rx_bytes :=
          match stats.networks with
          | some nets => match nets.eth0 with
            | some e => e.rx_bytes
            | none => 0
          | none => 0
        tx_bytes :=
          match stats.networks with
          | some nets => match nets.eth0 with
            | some e => e.tx_bytes
            | none => 0
          | none => 0 }
    dockerServer := some serverName }

/-! ### `runDockerCompose` and the temporary compose file

The file system is modelled as a map from path to file content; the
external `docker-compose` process is abstracted by its observable
outcome.  `Date.now()` is the invocation's observed millisecond
timestamp, passed in explicitly. -/

/-- File-system state: path → content. -/
abbrev FsState : Type := String → Option String

def fsEmpty : FsState := fun _ => none

/-- `fs.writeFileSync(path, content)` (creates or overwrites). -/
def fsWrite (fs : FsState) (path content : String) : FsState :=
  fun p => if p = path then some content else fs p

/-- `fs.unlinkSync(path)`. -/
def fsUnlink (fs : FsState) (path : String) : FsState :=
  fun p => if p = path then none else fs p

def fsRead (fs : FsState) (path : String) : Option String := fs path

/-- Fuel-based base-10 digit rendering (least-significant digit
extracted first, emitted last); the fuel only bounds the recursion
depth, one unit per digit. -/
def natDecimalAux : Nat → Nat → List Char
  | 0, _ => []
  | fuel + 1, n =>
    if n = 0 then []
    else natDecimalAux fuel (n / 10) ++ [Char.ofNat (48 + n % 10)]

/-- Decimal rendering of a natural number, the embedding of the JS
template interpolation `${Date.now()}` (base-10 digits, most
significant first). -/
def natDecimal (n : Nat) : String :=
  if n = 0 then "0" else String.mk (natDecimalAux n n)

/-- `` `docker-compose-${Date.now()}.yml` ``: the temporary file name of
one `runDockerCompose` invocation observing timestamp `now`. -/
def composeFileName (now : Nat) : String :=
  "docker-compose-" ++ natDecimal now ++ ".yml"

/-- `` `${tempDir}/${fileName}` ``. -/
def composeFilePath (tempDir : String) (now : Nat) : String :=
  tempDir ++ "/" ++ composeFileName now

/-- Observable outcome of the spawned `docker-compose` process: either
the process runs and terminates (the `close` event fires with its exit
code), or the spawn itself fails — the `error` event fires first, and
on Node ≥ 14 the `close` event is still emitted afterwards (with a
null exit code), so the `close` handler runs on this path too. -/
inductive ProcOutcome where
  | spawnError (err : String)
  | closed (code : Int)
deriving DecidableEq, Repr

/-- What one `docker-compose` invocation's promise ends up as:
`settled` is the resolution/rejection the promise reached (`none` when
the handler that would have settled it died first, so the promise never
settles), and `uncaught` is an exception that escaped the `close`
event handler (Node treats it as an uncaught exception; nothing in the
source catches or logs it). -/
structure ComposePromise where
  settled : Option (Except String Unit)
  uncaught : Option String
deriving Repr

/-- `DockerService.runDockerCompose(content, projectName)` from
`src/services/docker.ts`: write the YAML to the temporary file, spawn
`docker-compose -f <file> up -d`, and settle via two listeners —
`close` runs `fs.unlinkSync(filePath)` and then resolves (exit code 0)
or rejects (`docker-compose exited with code <code>`); `error` rejects
with the spawn error.  `unlinkResult` is the external file-system
response to the `unlinkSync` call (`none` = success, `some e` = the
call throws `e`).  Paths:
* process terminated, unlink succeeds: file deleted, promise resolves
  (code 0) or rejects with the exit-code message;
* process terminated, unlink throws: the exception escapes the `close`
  handler before `resolve`/`reject` is reached, so the file remains,
  the promise never settles, and `e` surfaces as an uncaught exception;
* spawn failed, unlink succeeds: `error` rejects with the spawn error,
  then `close` (emitted after `error`, with a null code) still deletes
  the file; its own late `reject` is a no-op on the settled promise;
* spawn failed, unlink throws: the promise is already rejected with the
  spawn error, the file remains, and `e` surfaces uncaught. -/
def runDockerCompose (tempDir : String) (fs : FsState) (now : Nat)
    (content : String) (projectName : Option String) (outcome : ProcOutcome)
    (unlinkResult : Option String) : FsState × ComposePromise :=
  let filePath := composeFilePath tempDir now
  let fs1 := fsWrite fs filePath content
  let _args := (match projectName with
    | some p => ["-p", p]
    | none => []) ++ ["-f", filePath, "up", "-d"]
  match outcome with
  | .closed code =>
    match unlinkResult with
    | none =>
      let fs2 := fsUnlink fs1 filePath
      if code = 0 then (fs2, ⟨some (.ok ()), none⟩)
      else (fs2, ⟨some (.error ("docker-compose exited with code " ++ toString code)), none⟩)
    | some e => (fs1, ⟨none, some e⟩)
  | .spawnError err =>
    match unlinkResult with
    | none =>
      let fs2 := fsUnlink fs1 filePath
      (fs2, ⟨some (.error err), none⟩)
    | some e => (fs1, ⟨some (.error err), some e⟩)

/-! ### `getDockerConfigs` (`src/index.ts`)

The process environment is embedded as the environment variables the
function reads; reading the TLS certificate files from a directory is
an external file-system effect, abstracted as a function returning the
three file contents or `none` when the reads throw (the source catches
and logs that failure). -/

structure Env where
  dockerServers : Option String := none
  dockerHost : Option String := none
  dockerPort : Option String := none
  dockerProtocol : Option String := none
  dockerCertPath : Option String := none
  /-- Lookup of `process.env['DOCKER_CERT_PATH_' + name.toUpperCase()]`. -/
  certPathFor : String → Option String := fun _ => none

/-- JS `parseInt` restricted to the decimal-digit prefix of the string
(`NaN`, i.e. no leading digit, becomes `none`; sign and whitespace
handling are not exercised by any claim). -/
def jsParseInt (s : String) : Option Nat :=
  let ds := s.data.takeWhile (fun c => c.isDigit)
  if ds.isEmpty then none else (String.mk ds).toNat?

/-- `parseInt(str) || 2375`: `NaN` and `0` are falsy. -/
def jsParseIntOr2375 (o : Option String) : Nat :=
  match o with
  | none => 2375
  | some s =>
    match jsParseInt s with
    | none => 2375
    | some 0 => 2375
    | some n => n

/-- One entry of the `DOCKER_SERVERS` parsing loop:
`parts = serverConfig.trim().split(':')`; entries with fewer than two
parts are skipped; TLS material is added when the per-name cert path is
set and the three reads succeed. -/
def parseServerEntry (env : Env)
    (readCerts : String → Option (String × String × String))
    (serverConfig : String) : Option DockerConfig :=
  let parts := (serverConfig.trim).splitOn ":"
  if parts.length ≥ 2 then
    let base : DockerConfig :=
      { name := some (parts.getD 0 "")
        host := some (parts.getD 1 "")
        port := if jsTruthy (parts.get? 2) then
            jsParseInt (parts.getD 2 "") else some 2375
        protocol := some (if jsTruthy (parts.get? 3) then parts.getD 3 "" else "http") }
    let withTls :=
      match env.certPathFor ((parts.getD 0 "").toUpper) with
      | some certPath =>
        if certPath != "" then
          match readCerts certPath with
          | some (ca, cert, key) =>
            { base with ca := some ca, cert := some cert, key := some key }
          | none => base
        else base
      | none => base
    some withTls
  else none

/-- `getDockerConfigs()` from `src/index.ts`: parse `DOCKER_SERVERS`
when set; when that produced no configuration, fall back to a single
configuration — from `DOCKER_HOST`/`DOCKER_PORT`/`DOCKER_PROTOCOL` when
`DOCKER_HOST` is set, else the default
`{name: 'localhost', host: 'localhost', port: 2375, protocol: 'http'}` —
optionally enriched with TLS material from `DOCKER_CERT_PATH`. -/
def getDockerConfigs (env : Env)
    (readCerts : String → Option (String × String × String)) :
    List DockerConfig :=
  let configs : List DockerConfig :=
    if jsTruthy env.dockerServers then
      ((env.dockerServers.getD "").splitOn ",").filterMap
        (parseServerEntry env readCerts)
    else []
  if configs.length = 0 then
    let base : DockerConfig :=
      if jsTruthy env.dockerHost then
        { name := some "primary"
          host := env.dockerHost
          port := some (jsParseIntOr2375 env.dockerPort)
          protocol := env.dockerProtocol }
      else
        { name := some "localhost"
          host := some "localhost"
          port := some (jsParseIntOr2375 env.dockerPort)
          protocol := some "http" }
    let withTls :=
      if jsTruthy env.dockerCertPath then
        match readCerts (env.dockerCertPath.getD "") with
        | some (ca, cert, key) =>
          { base with ca := some ca, cert := some cert, key := some key }
        | none => base
      else base
    configs ++ [withTls]
  else configs

/-! ### Heap model for the snapshot accessors (`getConfig`,
`getAllDockerServices`)

JavaScript object references are made explicit: a heap is a list of
cells, a reference is an index.  `{ ...this.config }` and
`new Map(this.services)` each allocate a fresh cell holding a copy of
the current value. -/

abbrev Heap (α : Type) : Type := List α

/-- Allocate a fresh cell; the returned reference is distinct from every
existing one. -/
def halloc {α : Type} (h : Heap α) (a : α) : Heap α × Nat :=
  (h ++ [a], h.length)

/-- Mutate the cell a reference points to. -/
def hwrite {α : Type} (h : Heap α) (r : Nat) (a : α) : Heap α :=
  h.set r a

def hread {α : Type} (h : Heap α) (r : Nat) : Option α :=
  h[r]?

/-- `DockerService.getConfig()`: `return { ...this.config }` — read the
configuration this service's `config` reference points to and return a
freshly allocated shallow copy. -/
def getConfigRef (h : Heap DockerConfig) (selfConfig : Nat) :
    Heap DockerConfig × Nat :=
  match hread h selfConfig with
  | some cfg => halloc h cfg
  | none => (h, selfConfig)

/-- `DockerManager.getAllDockerServices()`:
`return new Map(this.services)` — a freshly allocated map holding the
registry's current entries. -/
def getAllDockerServicesRef (h : Heap (Registry DockerService))
    (selfServices : Nat) : Heap (Registry DockerService) × Nat :=
  match hread h selfServices with
  | some m => halloc h m
  | none => (h, selfServices)

/-- Concrete container descriptor used as a test fixture. -/
def webContainer : ContainerInfo :=
  { id := "c1", name := "web", image := "nginx", state := "running", status := "Up" }

/-- Concrete container descriptor used as a test fixture. -/
def dbContainer : ContainerInfo :=
  { id := "c2", name := "db", image := "postgres", state := "exited", status := "Exited" }

/-- The stats sample of the repository's own test
(`src/__tests__/docker.test.ts`): cumulative usage 1000000 (prior
500000), system usage 2000000 (prior 1000000), 2 online CPUs, memory
usage 134217728 with cache 67108864 against limit 268435456, and an
`eth0` interface with 1024/2048 byte counters. -/
def statsFixture : StatsSample :=
  { cpu_stats :=
      { cpu_usage := { total_usage := 1000000 }
        system_cpu_usage := 2000000
        online_cpus := 2 }
    precpu_stats :=
      { cpu_usage := { total_usage := 500000 }
        system_cpu_usage := 1000000 }
    memory_stats :=
      { usage := 134217728
        limit := 268435456
        stats := { cache := 67108864 } }
    networks := some { eth0 := some { rx_bytes := 1024, tx_bytes := 2048 } } }

/-! ## Registry lemmas (JS `Map` semantics) -/

theorem mapGet_mapSet_self {α : Type} (m : Registry α) (k : String) (v : α) :
    mapGet (mapSet m k v) k = some v := by
  unfold mapSet mapGet
  by_cases hmem : m.any (fun p => p.1 == k) = true
  · rw [if_pos hmem, List.find?_map]
    obtain ⟨p, hp, hpk⟩ := List.any_eq_true.mp hmem
    have hfind : (m.find? ((fun q : String × α => q.1 == k) ∘
        fun p => if p.1 == k then (k, v) else p)).isSome = true := by
      rw [List.find?_isSome]
      exact ⟨p, hp, by simp [Function.comp, hpk]⟩
    obtain ⟨q, hq⟩ := Option.isSome_iff_exists.mp hfind
    rw [hq]
    have hqk := List.find?_some hq
    simp only [Function.comp_apply] at hqk
    by_cases hqk2 : (q.1 == k) = true
    · simp only [Option.map_some', if_pos hqk2]
    · rw [if_neg hqk2] at hqk
      exact absurd hqk hqk2
  · rw [if_neg hmem, List.find?_append]
    have h1 : m.find? (fun p => p.1 == k) = none :=
      List.find?_eq_none.mpr
        (fun p hp hpk => hmem (List.any_eq_true.mpr ⟨p, hp, hpk⟩))
    rw [h1]
    simp [List.find?]

theorem mapKeys_mapSet_of_mem {α : Type} (m : Registry α) (k : String) (v : α)
    (h : k ∈ mapKeys m) : mapKeys (mapSet m k v) = mapKeys m := by
  unfold mapSet mapKeys
  obtain ⟨p, hp, hpk⟩ := List.mem_map.mp h
  have hmem : m.any (fun p => p.1 == k) = true :=
    List.any_eq_true.mpr ⟨p, hp, by simp [hpk]⟩
  rw [if_pos hmem, List.map_map]
  refine List.map_congr_left ?_
  intro q _
  by_cases hq : (q.1 == k) = true
  · simp only [Function.comp_apply, if_pos hq]
    exact (eq_of_beq hq).symm
  · simp only [Function.comp_apply, if_neg hq]

theorem mem_mapKeys_mapSet {α : Type} (m : Registry α) (k : String) (v : α) :
    k ∈ mapKeys (mapSet m k v) := by
  by_cases hmem : m.any (fun p => p.1 == k) = true
  · obtain ⟨p, hp, hpk⟩ := List.any_eq_true.mp hmem
    have hk : k ∈ mapKeys m := List.mem_map.mpr ⟨p, hp, eq_of_beq hpk⟩
    rw [mapKeys_mapSet_of_mem m k v hk]
    exact hk
  · unfold mapSet mapKeys
    rw [if_neg hmem]
    simp

theorem nodup_mapKeys_mapSet {α : Type} (m : Registry α) (k : String) (v : α)
    (h : (mapKeys m).Nodup) : (mapKeys (mapSet m k v)).Nodup := by
  by_cases hmem : m.any (fun p => p.1 == k) = true
  · obtain ⟨p, hp, hpk⟩ := List.any_eq_true.mp hmem
    rw [mapKeys_mapSet_of_mem m k v (List.mem_map.mpr ⟨p, hp, eq_of_beq hpk⟩)]
    exact h
  · unfold mapSet mapKeys
    rw [if_neg hmem, List.map_append, List.nodup_append]
    refine ⟨h, by simp, ?_⟩
    intro x hx hx1
    simp only [List.map_cons, List.map_nil, List.mem_singleton] at hx1
    subst hx1
    obtain ⟨p, hp, hpk⟩ := List.mem_map.mp hx
    exact hmem (List.any_eq_true.mpr ⟨p, hp, by simp [hpk]⟩)

theorem not_mem_mapKeys_eraseP {α : Type} (m : Registry α) (k : String)
    (hnd : (mapKeys m).Nodup) :
    k ∉ mapKeys (m.eraseP (fun p => p.1 == k)) := by
  unfold mapKeys at *
  induction m with
  | nil => simp
  | cons p m ih =>
    simp only [List.map_cons, List.nodup_cons] at hnd
    by_cases hp : (p.1 == k) = true
    · simp only [List.eraseP_cons, hp, cond_true]
      have h1 : p.1 ∉ List.map (fun p => p.1) m := hnd.1
      rw [eq_of_beq hp] at h1
      exact h1
    · have hp2 : (p.1 == k) = false := by
        rw [beq_eq_false_iff_ne]
        exact fun hh => hp (by simp [hh])
      simp only [List.eraseP_cons, hp2, cond_false, List.map_cons, List.mem_cons]
      rintro (h1 | h2)
      · exact hp (by simp [h1])
      · exact ih hnd.2 h2

theorem eraseP_of_not_mem_mapKeys {α : Type} (m : Registry α) (k : String)
    (h : k ∉ mapKeys m) : m.eraseP (fun p => p.1 == k) = m := by
  unfold mapKeys at h
  induction m with
  | nil => rfl
  | cons p m ih =>
    simp only [List.map_cons, List.mem_cons, not_or] at h
    have hp2 : (p.1 == k) = false := by
      rw [beq_eq_false_iff_ne]
      exact fun hh => h.1 hh.symm
    simp only [List.eraseP_cons, hp2, cond_false]
    rw [ih h.2]

theorem any_eq_false_of_not_mem_mapKeys {α : Type} (m : Registry α) (k : String)
    (h : k ∉ mapKeys m) : m.any (fun p => p.1 == k) = false := by
  rw [Bool.eq_false_iff]
  intro hc
  obtain ⟨p, hp, hpk⟩ := List.any_eq_true.mp hc
  exact h (List.mem_map.mpr ⟨p, hp, eq_of_beq hpk⟩)

/-- A string starting with the literal `socket-` is never empty. -/
theorem socketPrefixed_ne_empty (x : String) : ("socket-" ++ x) ≠ "" := by
  intro hx
  have hdata := congrArg String.data hx
  rw [String.data_append] at hdata
  have h7 : "socket-".data = ['s', 'o', 'c', 'k', 'e', 't', '-'] := rfl
  rw [h7] at hdata
  simp at hdata

/-- C8: for every registry state, adding a configuration whose resolved
(explicit or derived) name collides with an existing entry's name
silently overwrites that entry: afterwards `get(name)` returns the newly
constructed connection, the set of names is unchanged, and names remain
unique. -/
theorem addDockerService_overwrites (m : Registry DockerService)
    (cfg : DockerConfig)
    (hmem : (mkDockerService cfg).getName ∈ getDockerServiceNames m)
    (hnd : (getDockerServiceNames m).Nodup) :
    getDockerService (addDockerService m cfg) (mkDockerService cfg).getName
      = some (mkDockerService cfg)
    ∧ getDockerServiceNames (addDockerService m cfg) = getDockerServiceNames m
    ∧ (getDockerServiceNames (addDockerService m cfg)).Nodup := by
  unfold getDockerServiceNames at hmem hnd
  unfold addDockerService getDockerService getDockerServiceNames
  refine ⟨mapGet_mapSet_self m _ _, mapKeys_mapSet_of_mem m _ _ hmem, ?_⟩
  rw [mapKeys_mapSet_of_mem m _ _ hmem]
  exact hnd

/-- Witness for C8 at a concrete collision: two configurations with the
same explicit name `srv`. -/
theorem addDockerService_overwrites_witness :
    ((mkDockerService { name := some "srv", host := some "hostB" }).getName
        ∈ getDockerServiceNames
          [("srv", mkDockerService { name := some "srv", host := some "hostA" })])
    ∧ (getDockerService
          (addDockerService
            [("srv", mkDockerService { name := some "srv", host := some "hostA" })]
            { name := some "srv", host := some "hostB" })
          (mkDockerService { name := some "srv", host := some "hostB" }).getName
        = some (mkDockerService { name := some "srv", host := some "hostB" })
      ∧ getDockerServiceNames
          (addDockerService
            [("srv", mkDockerService { name := some "srv", host := some "hostA" })]
            { name := some "srv", host := some "hostB" })
        = getDockerServiceNames
            [("srv", mkDockerService { name := some "srv", host := some "hostA" })]
      ∧ (getDockerServiceNames
          (addDockerService
            [("srv", mkDockerService { name := some "srv", host := some "hostA" })]
            { name := some "srv", host := some "hostB" })).Nodup) :=
  ⟨by decide,
   addDockerService_overwrites
     [("srv", mkDockerService { name := some "srv", host := some "hostA" })]
     { name := some "srv", host := some "hostB" } (by decide) (by decide)⟩

/-- C9: after `add`, the resolved name is listed; a subsequent `remove`
of that name returns `true` and the name is no longer listed; removing
an unregistered name returns `false` and leaves the whole registry
unchanged. -/
theorem add_remove_roundtrip (m : Registry DockerService) (cfg : DockerConfig)
    (hnd : (getDockerServiceNames m).Nodup) :
    (mkDockerService cfg).getName ∈ getDockerServiceNames (addDockerService m cfg)
    ∧ (removeDockerService (addDockerService m cfg)
        (mkDockerService cfg).getName).1 = true
    ∧ (mkDockerService cfg).getName ∉ getDockerServiceNames
        (removeDockerService (addDockerService m cfg)
          (mkDockerService cfg).getName).2
    ∧ ∀ k, k ∉ getDockerServiceNames m → removeDockerService m k = (false, m) := by
  unfold getDockerServiceNames at hnd
  unfold addDockerService removeDockerService getDockerServiceNames mapDelete
  refine ⟨mem_mapKeys_mapSet m _ _, ?_, ?_, ?_⟩
  · obtain ⟨p, hp, hpk⟩ := List.mem_map.mp (mem_mapKeys_mapSet (α := DockerService) m
      (mkDockerService cfg).getName (mkDockerService cfg))
    exact List.any_eq_true.mpr ⟨p, hp, by simp [hpk]⟩
  · exact not_mem_mapKeys_eraseP _ _ (nodup_mapKeys_mapSet m _ _ hnd)
  · intro k hk
    rw [any_eq_false_of_not_mem_mapKeys m k hk, eraseP_of_not_mem_mapKeys m k hk]

/-- Witness for C9 at a concrete registry with one entry `a`, adding a
configuration named `b` and removing the unknown name `zzz`. -/
theorem add_remove_roundtrip_witness :
    ((mkDockerService { name := some "b", host := some "h" }).getName
        ∈ getDockerServiceNames
          (addDockerService [("a", mkDockerService { name := some "a", host := some "x" })]
            { name := some "b", host := some "h" }))
    ∧ (removeDockerService
        (addDockerService [("a", mkDockerService { name := some "a", host := some "x" })]
          { name := some "b", host := some "h" })
        (mkDockerService { name := some "b", host := some "h" }).getName).1 = true
    ∧ ((mkDockerService { name := some "b", host := some "h" }).getName
        ∉ getDockerServiceNames
          (removeDockerService
            (addDockerService [("a", mkDockerService { name := some "a", host := some "x" })]
              { name := some "b", host := some "h" })
            (mkDockerService { name := some "b", host := some "h" }).getName).2)
    ∧ ("zzz" ∉ getDockerServiceNames
          [("a", mkDockerService { name := some "a", host := some "x" })])
    ∧ removeDockerService [("a", mkDockerService { name := some "a", host := some "x" })] "zzz"
        = (false, [("a", mkDockerService { name := some "a", host := some "x" })]) := by
  have h := add_remove_roundtrip
    [("a", mkDockerService { name := some "a", host := some "x" })]
    { name := some "b", host := some "h" } (by decide)
  exact ⟨h.1, h.2.1, h.2.2.1, by decide, h.2.2.2 "zzz" (by decide)⟩

/-- C7 counterexample: a configuration whose socket path is set to the
empty string (and no explicit name) derives the name `localhost`, not
`socket-` followed by the transformed path — JS truthiness treats the
empty string like an absent socket path. -/
theorem derivedName_empty_socketPath_counterexample :
    (mkDockerService { socketPath := some "" }).getName = "localhost"
    ∧ (mkDockerService { socketPath := some "" }).getName
        ≠ "socket-" ++ replacePathSeps "" := by decide

/-- C7 (amended): without a truthy explicit name, a configuration with a
nonempty socket path derives `socket-` followed by the path with each
`/` or `\` replaced by `_`; a configuration with no truthy socket path
and a nonempty host derives the host string; with neither, the derived
name is `localhost`. -/
theorem derivedName_spec (cfg : DockerConfig)
    (hname : jsTruthy cfg.name = false) :
    (∀ p, cfg.socketPath = some p → p ≠ "" →
      (mkDockerService cfg).getName = "socket-" ++ replacePathSeps p)
    ∧ (jsTruthy cfg.socketPath = false → ∀ h, cfg.host = some h → h ≠ "" →
      (mkDockerService cfg).getName = h)
    ∧ (jsTruthy cfg.socketPath = false → jsTruthy cfg.host = false →
      (mkDockerService cfg).getName = "localhost") := by
  have jsTruthy_some : ∀ s : String, jsTruthy (some s) = (s != "") := fun _ => rfl
  refine ⟨?_, ?_, ?_⟩
  · intro p hsp hp
    have hne := socketPrefixed_ne_empty (replacePathSeps p)
    simp [mkDockerService, DockerService.getName, resolveConfigName,
      jsTruthy_some, hname, hsp, hp, hne]
  · intro hsock h hh hne
    simp [mkDockerService, DockerService.getName, resolveConfigName,
      jsTruthy_some, hname, hsock, hh, hne]
  · intro hsock hhost
    simp [mkDockerService, DockerService.getName, resolveConfigName,
      jsTruthy_some, hname, hsock, hhost]

/-- Witness for C7 (amended) at the three kinds of configuration. -/
theorem derivedName_spec_witness :
    (mkDockerService { socketPath := some "/var/run/docker.sock" }).getName
        = "socket-" ++ replacePathSeps "/var/run/docker.sock"
    ∧ (mkDockerService { host := some "example.com" }).getName = "example.com"
    ∧ (mkDockerService {}).getName = "localhost" :=
  ⟨(derivedName_spec { socketPath := some "/var/run/docker.sock" } (by decide)).1
      "/var/run/docker.sock" rfl (by decide),
   (derivedName_spec { host := some "example.com" } (by decide)).2.1
      (by decide) "example.com" rfl (by decide),
   (derivedName_spec {} (by decide)).2.2 (by decide) (by decide)⟩

/-- `listAllContainers` distributes over concatenation of the registry
entry list. -/
theorem listAllContainers_append {S : Type}
    (listC : S → Bool → Except String (List ContainerInfo)) (all : Bool)
    (l1 l2 : List (String × S)) :
    listAllContainers listC all (l1 ++ l2)
      = listAllContainers listC all l1 ++ listAllContainers listC all l2 := by
  induction l1 with
  | nil => simp [listAllContainers]
  | cons p l1 ih =>
    obtain ⟨n, s⟩ := p
    simp [listAllContainers, ih]

/-- On a run of entries whose list calls all succeed,
`listAllContainers` is exactly the concatenation of their results. -/
theorem listAllContainers_of_all_ok {S : Type}
    (listC : S → Bool → Except String (List ContainerInfo)) (all : Bool)
    (results : String × S → List ContainerInfo)
    (l : List (String × S))
    (h : ∀ q ∈ l, listC q.2 all = .ok (results q)) :
    listAllContainers listC all l = (l.map results).flatten := by
  induction l with
  | nil => simp [listAllContainers]
  | cons p l ih =>
    obtain ⟨n, s⟩ := p
    have hp := h (n, s) (List.mem_cons_self _ _)
    simp only [listAllContainers, hp, List.map_cons, List.flatten_cons]
    rw [ih (fun q hq => h q (List.mem_cons_of_mem _ hq))]

/-- C3: across `N` registry entries of which exactly the one at the
failing position raises, `listAllContainers` returns the concatenation
of the other `N−1` entries' results in registry order — the failing
endpoint contributes nothing, and the aggregate is an ordinary
(successful) return value. -/
theorem listAllContainers_isolates_failure {S : Type}
    (listC : S → Bool → Except String (List ContainerInfo)) (all : Bool)
    (pre post : List (String × S)) (n : String) (s : S) (e : String)
    (results : String × S → List ContainerInfo)
    (hfail : listC s all = .error e)
    (hok : ∀ q ∈ pre ++ post, listC q.2 all = .ok (results q)) :
    listAllContainers listC all (pre ++ (n, s) :: post)
      = ((pre ++ post).map results).flatten := by
  have hsplit : pre ++ (n, s) :: post = pre ++ [(n, s)] ++ post := by simp
  rw [hsplit, listAllContainers_append, listAllContainers_append]
  have hmid : listAllContainers listC all [(n, s)] = [] := by
    simp [listAllContainers, hfail]
  rw [hmid, List.append_nil, List.map_append, List.flatten_append]
  rw [listAllContainers_of_all_ok listC all results pre
      (fun q hq => hok q (List.mem_append_left _ hq)),
    listAllContainers_of_all_ok listC all results post
      (fun q hq => hok q (List.mem_append_right _ hq))]

/-- Witness for C3: three endpoints, the middle one failing; the result
is the concatenation of the first and third endpoints' containers. -/
theorem listAllContainers_isolates_failure_witness :
    listAllContainers (fun (s : Except String (List ContainerInfo)) (_ : Bool) => s) true
        ([("a", Except.ok [webContainer])]
          ++ ("b", Except.error "connect ECONNREFUSED") :: [("c", Except.ok [dbContainer])])
      = (([("a", Except.ok [webContainer])] ++ [("c", Except.ok [dbContainer])]).map
          (fun q : String × Except String (List ContainerInfo) =>
            if q.1 = "a" then [webContainer] else [dbContainer])).flatten :=
  listAllContainers_isolates_failure
    (fun s _ => s) true
    [("a", Except.ok [webContainer])]
    [("c", Except.ok [dbContainer])]
    "b" (Except.error "connect ECONNREFUSED") "connect ECONNREFUSED"
    (fun q => if q.1 = "a" then [webContainer] else [dbContainer])
    rfl (by
      intro q hq
      simp only [List.mem_append, List.mem_singleton] at hq
      rcases hq with h | h <;> subst h <;> rfl)

/-- C2: `findContainerService` searches the registered connections in
registration order, listing all containers (including stopped) on each:
entries that fail or hold no matching container are skipped; the first
entry whose listing contains a container whose id or display name
equals the identifier is returned together with its name (so a
duplicate identifier on a later endpoint is shadowed); when every entry
fails or has no match, the result is `none`. -/
theorem findContainerService_first_match {S : Type}
    (listC : S → Bool → Except String (List ContainerInfo))
    (containerId : String) :
    (∀ (pre post : List (String × S)) (n : String) (s : S)
        (cs : List ContainerInfo),
      (∀ q ∈ pre, noMatchAt listC containerId q) →
      listC s true = .ok cs →
      (cs.find? (containerMatches containerId)).isSome = true →
      findContainerService listC containerId (pre ++ (n, s) :: post)
        = some (s, n))
    ∧ (∀ entries : List (String × S),
      (∀ q ∈ entries, noMatchAt listC containerId q) →
      findContainerService listC containerId entries = none) := by
  constructor
  · intro pre post n s cs hpre hok hfound
    induction pre with
    | nil =>
      obtain ⟨c, hc⟩ := Option.isSome_iff_exists.mp hfound
      simp [findContainerService, hok, hc]
    | cons q pre ih =>
      obtain ⟨qn, qs⟩ := q
      have hq := hpre (qn, qs) (List.mem_cons_self _ _)
      have hrest : ∀ r ∈ pre, noMatchAt listC containerId r :=
        fun r hr => hpre r (List.mem_cons_of_mem _ hr)
      rcases hq with ⟨e, he⟩ | ⟨ds, hds, hnone⟩
      · simp only [List.cons_append, findContainerService, he]
        exact ih hrest
      · simp only [List.cons_append, findContainerService, hds, hnone]
        exact ih hrest
  · intro entries hall
    induction entries with
    | nil => rfl
    | cons q entries ih =>
      obtain ⟨qn, qs⟩ := q
      have hq := hall (qn, qs) (List.mem_cons_self _ _)
      have hrest : ∀ r ∈ entries, noMatchAt listC containerId r :=
        fun r hr => hall r (List.mem_cons_of_mem _ hr)
      rcases hq with ⟨e, he⟩ | ⟨ds, hds, hnone⟩
      · simp only [findContainerService, he]
        exact ih hrest
      · simp only [findContainerService, hds, hnone]
        exact ih hrest

/-- Witness for C2: the identifier `c1` is not found on the failing
first endpoint, is found on the second, and the third (which also holds
it) is shadowed; the unknown identifier `ghost` is found nowhere. -/
theorem findContainerService_first_match_witness :
    findContainerService (fun (s : Except String (List ContainerInfo)) (_ : Bool) => s)
        "c1"
        ([("a", Except.error "connect ECONNREFUSED")]
          ++ ("b", Except.ok [dbContainer, webContainer]) :: [("c", Except.ok [webContainer])])
      = some (Except.ok [dbContainer, webContainer], "b")
    ∧ findContainerService (fun (s : Except String (List ContainerInfo)) (_ : Bool) => s)
        "ghost" [("a", Except.error "connect ECONNREFUSED"), ("b", Except.ok [webContainer])]
      = none :=
  ⟨(findContainerService_first_match (fun s _ => s) "c1").1
      [("a", Except.error "connect ECONNREFUSED")]
      [("c", Except.ok [webContainer])]
      "b" (Except.ok [dbContainer, webContainer]) [dbContainer, webContainer]
      (by
        intro q hq
        simp only [List.mem_singleton] at hq
        subst hq
        exact Or.inl ⟨"connect ECONNREFUSED", rfl⟩)
      rfl (by decide),
   (findContainerService_first_match (fun s _ => s) "ghost").2
      [("a", Except.error "connect ECONNREFUSED"), ("b", Except.ok [webContainer])]
      (by
        intro q hq
        fin_cases hq
        · exact Or.inl ⟨"connect ECONNREFUSED", rfl⟩
        · exact Or.inr ⟨[webContainer], rfl, by decide⟩)⟩

/-- C4: `getContainerStats` computes CPU percentage as
(cumulative-usage delta ÷ system-usage delta) × online CPUs × 100,
memory used as usage − cache, memory percentage as used ÷ limit × 100,
and network counters as the primary interface's byte totals (0 when the
interface or the networks object is absent); on the concrete sample the
CPU percentage is exactly 100 and the memory figures are 67108864 and
exactly 25. -/
theorem getContainerStats_formulas :
    (∀ (sn cid nm : String) (s : StatsSample),
      (getContainerStats sn cid nm s).cpuPercentage
        = ((s.cpu_stats.cpu_usage.total_usage - s.precpu_stats.cpu_usage.total_usage)
            / (s.cpu_stats.system_cpu_usage - s.precpu_stats.system_cpu_usage))
          * s.cpu_stats.online_cpus * 100
      ∧ (getContainerStats sn cid nm s).memoryUsage.used
          = s.memory_stats.usage - s.memory_stats.stats.cache
      ∧ (getContainerStats sn cid nm s).memoryUsage.limit = s.memory_stats.limit
      ∧ (getContainerStats sn cid nm s).memoryUsage.percentage
          = ((s.memory_stats.usage - s.memory_stats.stats.cache)
              / s.memory_stats.limit) * 100)
    ∧ (∀ (sn cid nm : String) (s : StatsSample) (nets : Networks) (e : NetworkCounters),
        s.networks = some nets → nets.eth0 = some e →
        (getContainerStats sn cid nm s).networkIo.rx_bytes = e.rx_bytes
        ∧ (getContainerStats sn cid nm s).networkIo.tx_bytes = e.tx_bytes)
    ∧ (∀ (sn cid nm : String) (s : StatsSample), s.networks = none →
        (getContainerStats sn cid nm s).networkIo.rx_bytes = 0
        ∧ (getContainerStats sn cid nm s).networkIo.tx_bytes = 0)
    ∧ (getContainerStats "srv" "c1" "/c1" statsFixture).cpuPercentage = 100
    ∧ (getContainerStats "srv" "c1" "/c1" statsFixture).memoryUsage.used = 67108864
    ∧ (getContainerStats "srv" "c1" "/c1" statsFixture).memoryUsage.percentage = 25 := by
  refine ⟨?_, ?_, ?_, ?_, ?_, ?_⟩
  · intro sn cid nm s
    exact ⟨rfl, rfl, rfl, rfl⟩
  · intro sn cid nm s nets e hnets he
    constructor <;> simp [getContainerStats, hnets, he]
  · intro sn cid nm s hnets
    constructor <;> simp [getContainerStats, hnets]
  · norm_num [getContainerStats, statsFixture]
  · norm_num [getContainerStats, statsFixture]
  · norm_num [getContainerStats, statsFixture]

/-- Witness for C4: the network-counter clauses applied at the concrete
sample (the interface is present with counters 1024/2048). -/
theorem getContainerStats_formulas_witness :
    (getContainerStats "srv" "c1" "/c1" statsFixture).networkIo.rx_bytes = 1024
    ∧ (getContainerStats "srv" "c1" "/c1" statsFixture).networkIo.tx_bytes = 2048 :=
  getContainerStats_formulas.2.1 "srv" "c1" "/c1" statsFixture
    { eth0 := some { rx_bytes := 1024, tx_bytes := 2048 } }
    { rx_bytes := 1024, tx_bytes := 2048 } rfl rfl

/-- C1 counterexample: deletion failures are raised, not logged.  At
exit code 0 with `fs.unlinkSync` throwing (e.g. `EPERM`), the exception
escapes the `close` handler before `resolve()` is reached: the promise
never settles — the primary outcome (success) is masked — the error
surfaces as an uncaught exception rather than a log line, and the
temporary file is still behind when the operation is over. -/
theorem runDockerCompose_unlink_failure_counterexample :
    (runDockerCompose "/tmp" fsEmpty 1712345678901 "services: {}" none
        (.closed 0) (some "EPERM: operation not permitted")).2.settled = none
    ∧ (runDockerCompose "/tmp" fsEmpty 1712345678901 "services: {}" none
        (.closed 0) (some "EPERM: operation not permitted")).2.uncaught
      = some "EPERM: operation not permitted"
    ∧ fsRead (runDockerCompose "/tmp" fsEmpty 1712345678901 "services: {}" none
        (.closed 0) (some "EPERM: operation not permitted")).1
        (composeFilePath "/tmp" 1712345678901) = some "services: {}" := by
  refine ⟨rfl, rfl, ?_⟩
  decide

/-- C1 (amended): on every exit path of the external tool the `close`
handler attempts deletion of the temporary file, and when the deletion
succeeds the file is gone on all three paths — exit code 0 resolves,
non-zero exit rejects with `docker-compose exited with code <code>`,
and a spawn failure rejects with the spawn error while the `close`
event (still emitted after `error`) deletes the file.  A failure of the
deletion itself, however, is raised, not logged: the exception escapes
the `close` handler uncaught, the file remains, and on the
process-terminated path it prevents the promise from settling at all,
masking the primary outcome (on the spawn-failure path the promise is
already rejected with the spawn error, which is preserved). -/
theorem runDockerCompose_cleanup (tempDir : String) (fs : FsState) (now : Nat)
    (content : String) (projectName : Option String) :
    (∀ code : Int,
      fsRead (runDockerCompose tempDir fs now content projectName
          (.closed code) none).1 (composeFilePath tempDir now) = none)
    ∧ (runDockerCompose tempDir fs now content projectName (.closed 0) none).2
        = ⟨some (.ok ()), none⟩
    ∧ (∀ code : Int, code ≠ 0 →
        (runDockerCompose tempDir fs now content projectName (.closed code) none).2
          = ⟨some (.error ("docker-compose exited with code " ++ toString code)), none⟩)
    ∧ (∀ err : String,
        fsRead (runDockerCompose tempDir fs now content projectName
            (.spawnError err) none).1 (composeFilePath tempDir now) = none
        ∧ (runDockerCompose tempDir fs now content projectName (.spawnError err) none).2
            = ⟨some (.error err), none⟩)
    ∧ (∀ (code : Int) (e : String),
        fsRead (runDockerCompose tempDir fs now content projectName
            (.closed code) (some e)).1 (composeFilePath tempDir now) = some content
        ∧ (runDockerCompose tempDir fs now content projectName (.closed code) (some e)).2
            = ⟨none, some e⟩)
    ∧ (∀ (err e : String),
        fsRead (runDockerCompose tempDir fs now content projectName
            (.spawnError err) (some e)).1 (composeFilePath tempDir now) = some content
        ∧ (runDockerCompose tempDir fs now content projectName (.spawnError err) (some e)).2
            = ⟨some (.error err), some e⟩) := by
  refine ⟨?_, ?_, ?_, ?_, ?_, ?_⟩
  · intro code
    by_cases hc : code = 0 <;> simp [runDockerCompose, fsRead, fsUnlink, hc]
  · simp [runDockerCompose]
  · intro code hc
    simp [runDockerCompose, hc]
  · intro err
    constructor
    · simp [runDockerCompose, fsRead, fsUnlink]
    · rfl
  · intro code e
    constructor
    · simp [runDockerCompose, fsRead, fsWrite]
    · rfl
  · intro err e
    constructor
    · simp [runDockerCompose, fsRead, fsWrite]
    · rfl

/-- Witness for C1 (amended): exit code 1 with successful deletion, a
spawn failure with successful deletion, and an exit with a throwing
deletion, all at concrete inputs. -/
theorem runDockerCompose_cleanup_witness :
    fsRead (runDockerCompose "/tmp" fsEmpty 5 "x" none (.closed 1) none).1
        (composeFilePath "/tmp" 5) = none
    ∧ (1 : Int) ≠ 0
    ∧ (runDockerCompose "/tmp" fsEmpty 5 "x" none (.closed 1) none).2
        = ⟨some (.error ("docker-compose exited with code " ++ toString (1 : Int))), none⟩
    ∧ fsRead (runDockerCompose "/tmp" fsEmpty 5 "x" none (.spawnError "ENOENT") none).1
        (composeFilePath "/tmp" 5) = none
    ∧ (runDockerCompose "/tmp" fsEmpty 5 "x" none (.spawnError "ENOENT") none).2
        = ⟨some (.error "ENOENT"), none⟩
    ∧ (runDockerCompose "/tmp" fsEmpty 5 "x" none (.closed 1) (some "EPERM")).2
        = ⟨none, some "EPERM"⟩ :=
  ⟨(runDockerCompose_cleanup "/tmp" fsEmpty 5 "x" none).1 1,
   by decide,
   (runDockerCompose_cleanup "/tmp" fsEmpty 5 "x" none).2.2.1 1 (by decide),
   ((runDockerCompose_cleanup "/tmp" fsEmpty 5 "x" none).2.2.2.1 "ENOENT").1,
   ((runDockerCompose_cleanup "/tmp" fsEmpty 5 "x" none).2.2.2.1 "ENOENT").2,
   ((runDockerCompose_cleanup "/tmp" fsEmpty 5 "x" none).2.2.2.2.1 1 "EPERM").2⟩

/-- C6 counterexample: the temporary file name depends only on the
millisecond value of `Date.now()`, so two deploy invocations observing
the same millisecond produce the same name, and the second
invocation's write lands in (shares) the first invocation's file. -/
theorem composeFile_same_millisecond_collision :
    composeFileName 1712345678901 = composeFileName 1712345678901
    ∧ fsRead (fsWrite (fsWrite fsEmpty (composeFilePath "/tmp" 1712345678901) "stack A")
          (composeFilePath "/tmp" 1712345678901) "stack B")
        (composeFilePath "/tmp" 1712345678901) = some "stack B" := by
  refine ⟨rfl, ?_⟩
  decide

/-- The decimal digit characters are distinct. -/
theorem digitChar_inj (a b : Nat) (ha : a < 10) (hb : b < 10)
    (h : Char.ofNat (48 + a) = Char.ofNat (48 + b)) : a = b := by
  interval_cases a <;> interval_cases b <;> revert h <;> decide

/-- Mapping digit values (< 10) to their characters is injective. -/
theorem map_digitChar_inj (l1 : List Nat) :
    ∀ l2 : List Nat, (∀ d ∈ l1, d < 10) → (∀ d ∈ l2, d < 10) →
    l1.map (fun d => Char.ofNat (48 + d)) = l2.map (fun d => Char.ofNat (48 + d)) →
    l1 = l2 := by
  induction l1 with
  | nil =>
    intro l2 _ _ h
    cases l2 with
    | nil => rfl
    | cons e l2 => simp at h
  | cons d l1 ih =>
    intro l2 h1 h2 h
    cases l2 with
    | nil => simp at h
    | cons e l2 =>
      simp only [List.map_cons, List.cons.injEq] at h
      have hd := digitChar_inj d e (h1 d (List.mem_cons_self _ _))
        (h2 e (List.mem_cons_self _ _)) h.1
      rw [hd, ih l2 (fun x hx => h1 x (List.mem_cons_of_mem _ hx))
        (fun x hx => h2 x (List.mem_cons_of_mem _ hx)) h.2]

/-- The fuel-based digit rendering agrees with the `Nat.digits`
specification whenever the fuel covers the input. -/
theorem natDecimalAux_eq_digits (fuel : Nat) :
    ∀ n : Nat, n ≤ fuel →
    natDecimalAux fuel n
      = ((Nat.digits 10 n).map fun d => Char.ofNat (48 + d)).reverse := by
  induction fuel with
  | zero =>
    intro n hn
    have : n = 0 := Nat.le_zero.mp hn
    subst this
    simp [natDecimalAux]
  | succ fuel ih =>
    intro n hn
    by_cases hz : n = 0
    · subst hz
      simp [natDecimalAux]
    · have hpos : 0 < n := Nat.pos_of_ne_zero hz
      have hdiv : n / 10 < n := Nat.div_lt_self hpos (by norm_num)
      have hfuel : n / 10 ≤ fuel := by omega
      simp only [natDecimalAux, if_neg hz]
      rw [ih (n / 10) hfuel, Nat.digits_def' (by norm_num : 1 < 10) hpos]
      simp

/-- Decimal rendering is injective on positive numbers. -/
theorem natDecimal_inj_pos (a b : Nat) (ha : 0 < a) (hb : 0 < b)
    (h : natDecimal a = natDecimal b) : a = b := by
  unfold natDecimal at h
  rw [if_neg (Nat.pos_iff_ne_zero.mp ha), if_neg (Nat.pos_iff_ne_zero.mp hb)] at h
  have hXY : natDecimalAux a a = natDecimalAux b b := congrArg String.data h
  rw [natDecimalAux_eq_digits a a le_rfl, natDecimalAux_eq_digits b b le_rfl] at hXY
  have hmap := List.reverse_inj.mp hXY
  have hdig := map_digitChar_inj (Nat.digits 10 a) (Nat.digits 10 b)
    (fun d hd => Nat.digits_lt_base (by norm_num) hd)
    (fun d hd => Nat.digits_lt_base (by norm_num) hd) hmap
  exact Nat.digits_inj_iff.mp hdig

/-- C6 (amended): two deploy invocations observing distinct (positive)
`Date.now()` millisecond values create temporary files with distinct
names; collisions occur exactly for invocations sharing a millisecond. -/
theorem composeFileName_distinct_of_distinct_times (t1 t2 : Nat)
    (h1 : 0 < t1) (h2 : 0 < t2) (hne : t1 ≠ t2) :
    composeFileName t1 ≠ composeFileName t2 := by
  intro h
  apply hne
  apply natDecimal_inj_pos t1 t2 h1 h2
  unfold composeFileName at h
  have hdata := congrArg String.data h
  rw [String.data_append, String.data_append,
    String.data_append, String.data_append, List.append_assoc,
    List.append_assoc] at hdata
  exact String.ext (List.append_cancel_right (List.append_cancel_left hdata))

/-- Witness for C6 (amended) at two adjacent millisecond timestamps. -/
theorem composeFileName_distinct_witness :
    (0 : Nat) < 1712345678901 ∧ (0 : Nat) < 1712345678902
    ∧ (1712345678901 : Nat) ≠ 1712345678902
    ∧ composeFileName 1712345678901 ≠ composeFileName 1712345678902 :=
  ⟨by norm_num, by norm_num, by norm_num,
   composeFileName_distinct_of_distinct_times 1712345678901 1712345678902
     (by norm_num) (by norm_num) (by norm_num)⟩

/-- C5 evaluation at the failing input: with no endpoint configured at
all (no `DOCKER_SERVERS`, no `DOCKER_HOST`, no socket path anywhere in
the environment), `getDockerConfigs` returns the single configuration
`host=localhost, port=2375, protocol=http` unconditionally — it never
consults the file system, so the well-known local socket path is never
attempted, even when that socket exists. -/
theorem getDockerConfigs_no_config_ignores_socket :
    getDockerConfigs {} (fun _ => none)
      = [{ name := some "localhost", host := some "localhost",
           port := some 2375, protocol := some "http" }]
    ∧ ∀ cfg ∈ getDockerConfigs {} (fun _ => none), cfg.socketPath = none := by
  constructor
  · rfl
  · decide

/-- Reading the freshly allocated cell yields the allocated value. -/
theorem hread_halloc_new {α : Type} (h : Heap α) (a : α) :
    hread (halloc h a).1 (halloc h a).2 = some a :=
  List.getElem?_concat_length h a

/-- A freshly allocated reference is distinct from every valid one. -/
theorem halloc_ne_valid {α : Type} (h : Heap α) (a : α) (r : Nat)
    (hr : r < h.length) : (halloc h a).2 ≠ r := by
  simp only [halloc]
  omega

/-- Allocation does not change what a valid reference points to. -/
theorem hread_halloc_old {α : Type} (h : Heap α) (a : α) (r : Nat)
    (hr : r < h.length) : hread (halloc h a).1 r = hread h r := by
  simp only [halloc, hread, List.getElem?_append, if_pos hr]

/-- Writing through one reference does not change another. -/
theorem hread_hwrite_ne {α : Type} (h : Heap α) (r2 r : Nat) (a : α)
    (hne : r2 ≠ r) : hread (hwrite h r2 a) r = hread h r :=
  List.getElem?_set_ne hne

/-- C10: `getConfig()` hands out a freshly allocated shallow copy of the
connection's configuration, and `getAllDockerServices()` a freshly
allocated copy of the registry map: the returned reference differs from
the stored one, holds the same value at return time, and mutating it
leaves the stored configuration (hence the derived name inside it) and
the stored name→connection map unchanged. -/
theorem snapshot_accessors_independent
    (hc : Heap DockerConfig) (rc : Nat) (hrc : rc < hc.length)
    (hm : Heap (Registry DockerService)) (rm : Nat) (hrm : rm < hm.length) :
    ((getConfigRef hc rc).2 ≠ rc
      ∧ hread (getConfigRef hc rc).1 (getConfigRef hc rc).2 = hread hc rc
      ∧ ∀ cfg2 : DockerConfig,
          hread (hwrite (getConfigRef hc rc).1 (getConfigRef hc rc).2 cfg2) rc
            = hread hc rc)
    ∧ ((getAllDockerServicesRef hm rm).2 ≠ rm
      ∧ hread (getAllDockerServicesRef hm rm).1 (getAllDockerServicesRef hm rm).2
          = hread hm rm
      ∧ ∀ m2 : Registry DockerService,
          hread (hwrite (getAllDockerServicesRef hm rm).1
            (getAllDockerServicesRef hm rm).2 m2) rm = hread hm rm) := by
  constructor
  · have hcfg : hread hc rc = some (hc.get ⟨rc, hrc⟩) :=
      List.getElem?_eq_getElem hrc
    simp only [getConfigRef, hcfg]
    refine ⟨halloc_ne_valid hc _ rc hrc, ?_, ?_⟩
    · rw [hread_halloc_new]
    · intro cfg2
      rw [hread_hwrite_ne _ _ _ _ (halloc_ne_valid hc _ rc hrc),
        hread_halloc_old hc _ rc hrc]
      exact hcfg
  · have hmap : hread hm rm = some (hm.get ⟨rm, hrm⟩) :=
      List.getElem?_eq_getElem hrm
    simp only [getAllDockerServicesRef, hmap]
    refine ⟨halloc_ne_valid hm _ rm hrm, ?_, ?_⟩
    · rw [hread_halloc_new]
    · intro m2
      rw [hread_hwrite_ne _ _ _ _ (halloc_ne_valid hm _ rm hrm),
        hread_halloc_old hm _ rm hrm]
      exact hmap

/-- Witness for C10 on a one-cell heap each: mutating the copy returned
by the accessor leaves the original cell's value intact. -/
theorem snapshot_accessors_independent_witness :
    ((getConfigRef [{ host := some "a" }] 0).2 ≠ 0
      ∧ hread (hwrite (getConfigRef [{ host := some "a" }] 0).1
          (getConfigRef [{ host := some "a" }] 0).2 { host := some "b" }) 0
        = hread [{ host := some "a" }] 0)
    ∧ ((getAllDockerServicesRef [[("a", mkDockerService { host := some "a" })]] 0).2 ≠ 0
      ∧ hread (hwrite (getAllDockerServicesRef
            [[("a", mkDockerService { host := some "a" })]] 0).1
          (getAllDockerServicesRef [[("a", mkDockerService { host := some "a" })]] 0).2
          []) 0
        = hread [[("a", mkDockerService { host := some "a" })]] 0) := by
  have h := snapshot_accessors_independent [{ host := some "a" }] 0 (by decide)
    [[("a", mkDockerService { host := some "a" })]] 0 (by decide)
  exact ⟨⟨h.1.1, h.1.2.2 { host := some "b" }⟩, ⟨h.2.1, h.2.2.2 []⟩⟩
